import Mathlib

/-!
Verification of the version-metadata module of the `cli` package
(`version.go`): the build-metadata provider (`BuildInfo` with its
accessors and pseudo-version synthesis) and the version command's
selection and rendering logic (`writeText` / `writeJson` / `Exec`).

Modelling conventions:
* Go strings are modelled as Lean `String`.
* A Go runtime fault (the out-of-range slice in `pseudoVersion`) is
  modelled as `none` in an `Option` result and propagated.
* `time.Parse(time.RFC3339, s)` is modelled by `parseRFC3339`, following
  the strict RFC3339 layout: `YYYY-MM-DDThh:mm:ss`, an optional
  fractional-seconds part, then `Z` or a `±hh:mm` offset, with range
  validation of all components.  `Format("060102030405")` reads the
  parsed wall-clock fields, so the embedding keeps those fields and does
  not need an epoch conversion.
-/

set_option autoImplicit false

namespace Cli

/-- One key/value entry of `debug.BuildInfo.Settings`. -/
structure BuildSetting where
  key : String
  value : String
deriving DecidableEq, Repr

/-- The part of `runtime/debug.BuildInfo` the code reads: `GoVersion`,
`Main.Version` and `Settings`. -/
structure DebugBuildInfo where
  goVersion : String
  mainVersion : String
  settings : List BuildSetting
deriving DecidableEq, Repr

/-- `cli.BuildInfo`: the embedded toolchain metadata plus the optional
explicit version override supplied at construction. -/
structure BuildInfo where
  buildInfo : DebugBuildInfo
  version : String
deriving DecidableEq, Repr

/-- `strconv.ParseBool`: accepts exactly `1,t,T,TRUE,true,True` and
`0,f,F,FALSE,false,False`; anything else is an error (`none`). -/
def parseBool (s : String) : Option Bool :=
  if s = "1" ∨ s = "t" ∨ s = "T" ∨ s = "TRUE" ∨ s = "true" ∨ s = "True" then
    some true
  else if s = "0" ∨ s = "f" ∨ s = "F" ∨ s = "FALSE" ∨ s = "false" ∨ s = "False" then
    some false
  else
    none

/-- The `for _, setting := range … if setting.Key == k` loops of the
accessors: value of the first setting whose key is `k`. -/
def findSetting (settings : List BuildSetting) (k : String) : Option String :=
  match settings with
  | [] => none
  | s :: rest => if s.key = k then some s.value else findSetting rest k

/-- `BuildInfo.Revision`: first `vcs.revision` setting, else `""`. -/
def BuildInfo.Revision (bi : BuildInfo) : String :=
  match findSetting bi.buildInfo.settings "vcs.revision" with
  | some v => v
  | none => ""

/-- `BuildInfo.Time`: first `vcs.time` setting, else `""`. -/
def BuildInfo.Time (bi : BuildInfo) : String :=
  match findSetting bi.buildInfo.settings "vcs.time" with
  | some v => v
  | none => ""

/-- `BuildInfo.Modified`: boolean-parse the first `vcs.modified` setting;
`false` on absence or parse failure. -/
def BuildInfo.Modified (bi : BuildInfo) : Bool :=
  match findSetting bi.buildInfo.settings "vcs.modified" with
  | some v =>
    match parseBool v with
    | some b => b
    | none => false
  | none => false

/-- `BuildInfo.GoVersion`: the recorded toolchain version, verbatim. -/
def BuildInfo.GoVersion (bi : BuildInfo) : String :=
  bi.buildInfo.goVersion

/-- Wall-clock fields of a parsed RFC3339 timestamp. -/
structure DateTime where
  year : Nat
  month : Nat
  day : Nat
  hour : Nat
  minute : Nat
  second : Nat
deriving DecidableEq, Repr

/-- Decimal value of a digit character, `none` otherwise. -/
def digitVal (c : Char) : Option Nat :=
  if c.isDigit then some (c.toNat - 48) else none

/-- Two decimal digits. -/
def parse2 (a b : Char) : Option Nat :=
  match digitVal a, digitVal b with
  | some x, some y => some (10 * x + y)
  | _, _ => none

/-- Four decimal digits. -/
def parse4 (a b c d : Char) : Option Nat :=
  match parse2 a b, parse2 c d with
  | some x, some y => some (100 * x + y)
  | _, _ => none

/-- Gregorian leap-year rule (`time.isLeap`). -/
def isLeap (y : Nat) : Bool :=
  y % 4 = 0 && (y % 100 ≠ 0 || y % 400 = 0)

/-- Days in a month (`time.daysIn`). -/
def daysIn (m y : Nat) : Nat :=
  if m = 2 then (if isLeap y then 29 else 28)
  else if m = 4 ∨ m = 6 ∨ m = 9 ∨ m = 11 then 30
  else 31

/-- Component range checks performed by the RFC3339 parser. -/
def validDate (dt : DateTime) : Bool :=
  1 ≤ dt.month && dt.month ≤ 12 &&
  1 ≤ dt.day && dt.day ≤ daysIn dt.month dt.year &&
  dt.hour ≤ 23 && dt.minute ≤ 59 && dt.second ≤ 59

/-- Drop a run of leading digits. -/
def dropDigits : List Char → List Char
  | [] => []
  | c :: rest => if c.isDigit then dropDigits rest else c :: rest

/-- Strip an optional fractional-seconds part: a `.` followed by at least
one digit; otherwise leave the input unchanged. -/
def stripFrac : List Char → List Char
  | '.' :: c :: rest => if c.isDigit then dropDigits rest else '.' :: c :: rest
  | l => l

/-- Accept the offset part: `Z` or `±hh:mm` with `hh ≤ 23`, `mm ≤ 59`. -/
def validOffset : List Char → Bool
  | ['Z'] => true
  | [c, h1, h2, ':', m1, m2] =>
    (c = '+' || c = '-') &&
    (match parse2 h1 h2, parse2 m1 m2 with
     | some hh, some mm => hh ≤ 23 && mm ≤ 59
     | _, _ => false)
  | _ => false

/-- `time.Parse(time.RFC3339, s)`: fixed layout
`YYYY-MM-DDThh:mm:ss[.frac](Z|±hh:mm)` with range validation; `none` on
any mismatch. -/
def parseRFC3339 (s : String) : Option DateTime :=
  match s.data with
  | y1 :: y2 :: y3 :: y4 :: '-' :: m1 :: m2 :: '-' :: d1 :: d2 :: 'T' ::
    h1 :: h2 :: ':' :: mi1 :: mi2 :: ':' :: s1 :: s2 :: rest =>
    match parse4 y1 y2 y3 y4, parse2 m1 m2, parse2 d1 d2,
          parse2 h1 h2, parse2 mi1 mi2, parse2 s1 s2 with
    | some yy, some mo, some dd, some hh, some mi, some ss =>
      let dt : DateTime := ⟨yy, mo, dd, hh, mi, ss⟩
      if validDate dt && validOffset (stripFrac rest) then some dt else none
    | _, _, _, _, _, _ => none
  | _ => none

/-- The digit character for `n % 10`-sized values. -/
def digitChar (n : Nat) : Char :=
  Char.ofNat (48 + n)

/-- Zero-padded two-digit decimal rendering, as Go's `Format` produces
for the two-letter layout elements on in-range components. -/
def pad2 (n : Nat) : String :=
  ⟨[digitChar (n / 10 % 10), digitChar (n % 10)]⟩

/-- Go's zero-padded 12-hour layout element `03`: `hour % 12`, with `0`
rendered as `12`. -/
def hour12 (h : Nat) : Nat :=
  if h % 12 = 0 then 12 else h % 12

/-- `t.Format("060102030405")`: two digits each of year-of-century,
month, day, 12-hour hour, minute, second of the parsed wall clock. -/
def formatTimestamp (dt : DateTime) : String :=
  pad2 (dt.year % 100) ++ pad2 dt.month ++ pad2 dt.day ++
  pad2 (hour12 dt.hour) ++ pad2 dt.minute ++ pad2 dt.second

/-- `BuildInfo.pseudoVersion`: parse `Time()` as RFC3339 (returning `""`
on parse error), then compose `v0.0.0-<timestamp>-<revision[:12]>`.
`Revision()[:12]` is an unguarded Go slice: when the revision has fewer
than 12 characters it faults at runtime, modelled as `none`. -/
def BuildInfo.pseudoVersion (bi : BuildInfo) : Option String :=
  match parseRFC3339 bi.Time with
  | none => some ""
  | some t =>
    if bi.Revision.length < 12 then none
    else some ("v0.0.0-" ++ formatTimestamp t ++ "-" ++ bi.Revision.take 12)

/-- `BuildInfo.Version`: the explicit override when non-empty, else the
pseudo-version when non-empty, else `Main.Version`.  A fault in
`pseudoVersion` (`none`) propagates. -/
def BuildInfo.Version (bi : BuildInfo) : Option String :=
  if bi.version ≠ "" then some bi.version
  else
    match bi.pseudoVersion with
    | none => none
    | some v => if v ≠ "" then some v else some bi.buildInfo.mainVersion

/-- A `VersionInfo` provider as the renderer sees it: the five
side-effect-free accessors. -/
structure VersionInfo where
  version : String
  revision : String
  time : String
  modified : Bool
  goVersion : String
deriving DecidableEq, Repr

/-- One registered boolean flag: its current value and whether it was
explicitly supplied on the command line (`flag.FlagSet.Visit` visits
exactly the explicitly-set flags).  A long flag and its single-letter
shorthand share one value (`fs.BoolVar` on the same pointer), so one
state stands for the pair; `wasSet` holds when either spelling was
supplied. -/
structure FlagState where
  value : Bool
  wasSet : Bool
deriving DecidableEq, Repr

/-- The flag set registered by `RegisterFlags`. -/
structure VersionFlags where
  all : FlagState
  number : FlagState
  revision : FlagState
  time : FlagState
  modified : FlagState
  goVersion : FlagState
  json : FlagState
deriving DecidableEq, Repr

/-- `flag.FlagSet.Lookup` by flag name (long names and shorthands). -/
def lookupFlag (fl : VersionFlags) (name : String) : Option FlagState :=
  if name = "all" ∨ name = "a" then some fl.all
  else if name = "number" ∨ name = "n" then some fl.number
  else if name = "revision" ∨ name = "r" then some fl.revision
  else if name = "time" ∨ name = "t" then some fl.time
  else if name = "modified" ∨ name = "m" then some fl.modified
  else if name = "go-version" ∨ name = "g" then some fl.goVersion
  else if name = "json" then some fl.json
  else none

/-- The string a boolean flag's `Value.String()` yields. -/
def boolFlagString (b : Bool) : String :=
  if b then "true" else "false"

/-- `testFlag`: look the flag up and boolean-parse its textual value;
`false` when the flag is unknown or the value does not parse. -/
def testFlag (fl : VersionFlags) (name : String) : Bool :=
  match lookupFlag fl name with
  | none => false
  | some f =>
    match parseBool (boolFlagString f.value) with
    | some v => v
    | none => false

/-- The `any` computation of `Exec`: `flags.Visit` sets `any` when some
visited (explicitly-supplied) flag has a name other than `json`. -/
def anyFieldFlag (fl : VersionFlags) : Bool :=
  fl.all.wasSet || fl.number.wasSet || fl.revision.wasSet ||
  fl.time.wasSet || fl.modified.wasSet || fl.goVersion.wasSet

/-- Go's `unicode.IsSpace`: the characters with the Unicode `White_Space`
property. -/
def goIsSpace (c : Char) : Bool :=
  c = ' ' || c = '\t' || c = '\n' || c = Char.ofNat 11 || c = Char.ofNat 12 ||
  c = '\r' || c = Char.ofNat 0x85 || c = Char.ofNat 0xA0 ||
  c = Char.ofNat 0x1680 || (0x2000 ≤ c.toNat && c.toNat ≤ 0x200A) ||
  c = Char.ofNat 0x2028 || c = Char.ofNat 0x2029 || c = Char.ofNat 0x202F ||
  c = Char.ofNat 0x205F || c = Char.ofNat 0x3000

/-- `strings.TrimSpace`: drop leading and trailing whitespace. -/
def trimSpace (s : String) : String :=
  ⟨((s.data.dropWhile goIsSpace).reverse.dropWhile goIsSpace).reverse⟩

/-- The string built by `writeText`'s `strings.Builder` before trimming:
a sequence of conditional `WriteString` appends. -/
def writeTextBody (fl : VersionFlags) (any all : Bool) (info : VersionInfo) : String :=
  let b := ""
  let b := if !any || testFlag fl "number" || all then b ++ info.version else b
  let b := if testFlag fl "revision" || all then b ++ " " ++ info.revision else b
  let b := if testFlag fl "time" || all then b ++ " " ++ info.time else b
  let b := if testFlag fl "go-version" || all then b ++ " " ++ info.goVersion else b
  let b := if testFlag fl "modified" || all then
             (if info.modified then b ++ " (modified)" else b)
           else b
  b

/-- What `writeText` hands to `fmt.Fprintln`: the trimmed builder string
plus the terminating newline. -/
def writeTextOutput (fl : VersionFlags) (any all : Bool) (info : VersionInfo) : String :=
  trimSpace (writeTextBody fl any all info) ++ "\n"

/-- The `data` map built by `writeJson`, as the association list of the
conditional inserts (keys are pairwise distinct, so the list order is
immaterial to lookups). -/
def writeJsonData (fl : VersionFlags) (any all : Bool) (info : VersionInfo) :
    List (String × String) :=
  (if !any || testFlag fl "number" || all then [("Version", info.version)] else []) ++
  (if testFlag fl "revision" || all then [("Revision", info.revision)] else []) ++
  (if testFlag fl "time" || all then [("Time", info.time)] else []) ++
  (if testFlag fl "go-version" || all then [("GoVersion", info.goVersion)] else []) ++
  (if testFlag fl "modified" || all then
     [("Modified", if info.modified then "true" else "false")] else [])

/-- JSON string escaping as `encoding/json` performs it (with its
default HTML escaping). -/
def escapeJsonChar (c : Char) : String :=
  if c = '"' then "\\\""
  else if c = '\\' then "\\\\"
  else if c = '\n' then "\\n"
  else if c = '\r' then "\\r"
  else if c = '\t' then "\\t"
  else if c = '<' then "\\u003c"
  else if c = '>' then "\\u003e"
  else if c = '&' then "\\u0026"
  else if c.toNat < 32 then
    "\\u00" ++ ⟨[Nat.digitChar (c.toNat / 16), Nat.digitChar (c.toNat % 16)]⟩
  else String.singleton c

/-- A JSON string literal for `s`. -/
def encodeJsonString (s : String) : String :=
  "\"" ++ String.join (s.data.map escapeJsonChar) ++ "\""

/-- Insert an entry into a key-sorted association list. -/
def insertByKey (p : String × String) : List (String × String) → List (String × String)
  | [] => [p]
  | q :: rest => if p.1 < q.1 then p :: q :: rest else q :: insertByKey p rest

/-- Sort an association list by key, as `json.Marshal` sorts map keys. -/
def sortByKey : List (String × String) → List (String × String)
  | [] => []
  | p :: rest => insertByKey p (sortByKey rest)

/-- `json.Marshal` on the `map[string]string`: one compact object with
the keys in sorted order. -/
def encodeJsonObject (data : List (String × String)) : String :=
  "\x7b" ++
  String.intercalate ","
    ((sortByKey data).map (fun p => encodeJsonString p.1 ++ ":" ++ encodeJsonString p.2)) ++
  "\x7d"

/-- What `writeJson` hands to `fmt.Fprintln`: the encoded object plus
the terminating newline. -/
def writeJsonOutput (fl : VersionFlags) (any all : Bool) (info : VersionInfo) : String :=
  encodeJsonObject (writeJsonData fl any all info) ++ "\n"

/-- `Exec`: derive `any` from the explicitly-set flags (excluding
`json`) and `all` from `testFlag`, then render in the selected mode.
The successful-write output string is returned. -/
def execOutput (fl : VersionFlags) (info : VersionInfo) : String :=
  let any := anyFieldFlag fl
  let all := testFlag fl "all"
  if testFlag fl "json" then writeJsonOutput fl any all info
  else writeTextOutput fl any all info

/-- `writeText` with a fallible output sink `w`: the result of the Go
function (errors as strings) paired with the exact sequence of strings
passed to the sink. -/
def writeTextRun (fl : VersionFlags) (any all : Bool) (info : VersionInfo)
    (w : String → Except String Unit) : Except String Unit × List String :=
  let payload := trimSpace (writeTextBody fl any all info) ++ "\n"
  match w payload with
  | Except.error e => (Except.error ("error writing version information: " ++ e), [payload])
  | Except.ok _ => (Except.ok (), [payload])

/-- `writeJson` with an abstract encoder `enc` standing for
`json.Marshal` and a fallible output sink `w`: the result of the Go
function paired with the exact sequence of strings passed to the sink.
On an encoding error the sink is never reached. -/
def writeJsonRun (fl : VersionFlags) (any all : Bool) (info : VersionInfo)
    (enc : List (String × String) → Except String String)
    (w : String → Except String Unit) : Except String Unit × List String :=
  match enc (writeJsonData fl any all info) with
  | Except.error e => (Except.error ("error encoding version information: " ++ e), [])
  | Except.ok m =>
    match w (m ++ "\n") with
    | Except.error e => (Except.error ("error writing version information: " ++ e), [m ++ "\n"])
    | Except.ok _ => (Except.ok (), [m ++ "\n"])

/-- The selection rule as the specification states it, §4.2: `Version`
when no field flag was explicitly given, or `number`, or `all`; each
other field when its own flag or `all`. -/
structure FieldSelection where
  version : Bool
  revision : Bool
  time : Bool
  goVersion : Bool
  modified : Bool
deriving DecidableEq, Repr

/-- The specification's selection rule, written from its §4.2 wording,
to be compared with the guards of both renderers. -/
def specFieldSelection (fl : VersionFlags) (any all : Bool) : FieldSelection where
  version := !any || testFlag fl "number" || all
  revision := testFlag fl "revision" || all
  time := testFlag fl "time" || all
  goVersion := testFlag fl "go-version" || all
  modified := testFlag fl "modified" || all

/-! ### Helper lemmas -/

theorem writeTextBody_eq (fl : VersionFlags) (any all : Bool) (info : VersionInfo) :
    writeTextBody fl any all info =
      (if !any || testFlag fl "number" || all then info.version else "") ++
      (if testFlag fl "revision" || all then " " ++ info.revision else "") ++
      (if testFlag fl "time" || all then " " ++ info.time else "") ++
      (if testFlag fl "go-version" || all then " " ++ info.goVersion else "") ++
      (if (testFlag fl "modified" || all) && info.modified then " (modified)" else "") := by
  apply String.ext
  cases hV : (!any || testFlag fl "number" || all) <;>
  cases hR : (testFlag fl "revision" || all) <;>
  cases hT : (testFlag fl "time" || all) <;>
  cases hG : (testFlag fl "go-version" || all) <;>
  cases hM : (testFlag fl "modified" || all) <;>
  cases hMod : info.modified <;>
    simp [writeTextBody, hV, hR, hT, hG, hM, hMod, String.data_append, List.append_assoc]

theorem jsonLookup_version (fl : VersionFlags) (any all : Bool) (info : VersionInfo) :
    ((writeJsonData fl any all info).lookup "Version").isSome =
      (!any || testFlag fl "number" || all) := by
  cases hV : (!any || testFlag fl "number" || all) <;>
  cases hR : (testFlag fl "revision" || all) <;>
  cases hT : (testFlag fl "time" || all) <;>
  cases hG : (testFlag fl "go-version" || all) <;>
  cases hM : (testFlag fl "modified" || all) <;>
    simp [writeJsonData, hV, hR, hT, hG, hM, List.lookup]

theorem jsonLookup_revision (fl : VersionFlags) (any all : Bool) (info : VersionInfo) :
    ((writeJsonData fl any all info).lookup "Revision").isSome =
      (testFlag fl "revision" || all) := by
  cases hV : (!any || testFlag fl "number" || all) <;>
  cases hR : (testFlag fl "revision" || all) <;>
  cases hT : (testFlag fl "time" || all) <;>
  cases hG : (testFlag fl "go-version" || all) <;>
  cases hM : (testFlag fl "modified" || all) <;>
    simp [writeJsonData, hV, hR, hT, hG, hM, List.lookup]

theorem jsonLookup_time (fl : VersionFlags) (any all : Bool) (info : VersionInfo) :
    ((writeJsonData fl any all info).lookup "Time").isSome =
      (testFlag fl "time" || all) := by
  cases hV : (!any || testFlag fl "number" || all) <;>
  cases hR : (testFlag fl "revision" || all) <;>
  cases hT : (testFlag fl "time" || all) <;>
  cases hG : (testFlag fl "go-version" || all) <;>
  cases hM : (testFlag fl "modified" || all) <;>
    simp [writeJsonData, hV, hR, hT, hG, hM, List.lookup]

theorem jsonLookup_goVersion (fl : VersionFlags) (any all : Bool) (info : VersionInfo) :
    ((writeJsonData fl any all info).lookup "GoVersion").isSome =
      (testFlag fl "go-version" || all) := by
  cases hV : (!any || testFlag fl "number" || all) <;>
  cases hR : (testFlag fl "revision" || all) <;>
  cases hT : (testFlag fl "time" || all) <;>
  cases hG : (testFlag fl "go-version" || all) <;>
  cases hM : (testFlag fl "modified" || all) <;>
    simp [writeJsonData, hV, hR, hT, hG, hM, List.lookup]

theorem jsonLookup_modified (fl : VersionFlags) (any all : Bool) (info : VersionInfo) :
    ((writeJsonData fl any all info).lookup "Modified").isSome =
      (testFlag fl "modified" || all) := by
  cases hV : (!any || testFlag fl "number" || all) <;>
  cases hR : (testFlag fl "revision" || all) <;>
  cases hT : (testFlag fl "time" || all) <;>
  cases hG : (testFlag fl "go-version" || all) <;>
  cases hM : (testFlag fl "modified" || all) <;>
    simp [writeJsonData, hV, hR, hT, hG, hM, List.lookup]

theorem and_ite_nest (g m : Bool) (s : String) :
    (if g && m then s else "") = (if g then (if m then s else "") else "") := by
  cases g <;> cases m <;> simp

theorem digitChar_isDigit {n : Nat} (h : n < 10) : (digitChar n).isDigit = true := by
  interval_cases n <;> decide

theorem pad2_isDigit (n : Nat) : ∀ c ∈ (pad2 n).data, c.isDigit = true := by
  intro c hc
  simp [pad2] at hc
  rcases hc with h | h <;> subst h <;> exact digitChar_isDigit (by omega)

theorem pad2_length (n : Nat) : (pad2 n).length = 2 := rfl

theorem formatTimestamp_length (dt : DateTime) : (formatTimestamp dt).length = 12 := by
  simp [formatTimestamp, String.length_append, pad2_length]

theorem formatTimestamp_digits (dt : DateTime) :
    ∀ c ∈ (formatTimestamp dt).data, c.isDigit = true := by
  intro c hc
  simp only [formatTimestamp, String.data_append, List.mem_append] at hc
  rcases hc with ((((h | h) | h) | h) | h) | h <;> exact pad2_isDigit _ _ h

/-! ### Concrete fixtures -/

/-- A flag left at its default. -/
def flagOff : FlagState := ⟨false, false⟩

/-- A flag explicitly supplied as true. -/
def flagOn : FlagState := ⟨true, true⟩

/-- A flag explicitly supplied as false (e.g. `--number=false`). -/
def flagExplicitOff : FlagState := ⟨false, true⟩

/-- No flag supplied. -/
def flagsNone : VersionFlags :=
  ⟨flagOff, flagOff, flagOff, flagOff, flagOff, flagOff, flagOff⟩

/-- Exactly `--number`. -/
def flagsNumberOnly : VersionFlags :=
  ⟨flagOff, flagOn, flagOff, flagOff, flagOff, flagOff, flagOff⟩

/-- Exactly `--number=false`. -/
def flagsNumberFalse : VersionFlags :=
  ⟨flagOff, flagExplicitOff, flagOff, flagOff, flagOff, flagOff, flagOff⟩

/-- Exactly `--modified`. -/
def flagsModifiedOnly : VersionFlags :=
  ⟨flagOff, flagOff, flagOff, flagOff, flagOn, flagOff, flagOff⟩

/-- Exactly `--all`. -/
def flagsAllOnly : VersionFlags :=
  ⟨flagOn, flagOff, flagOff, flagOff, flagOff, flagOff, flagOff⟩

/-- A sample provider result. -/
def info0 : VersionInfo :=
  ⟨"v1.2.3", "abcdef123456", "2024-01-15T10:30:00Z", true, "go1.21"⟩

/-- Metadata with a parseable `vcs.time` and no `vcs.revision` entry, no
explicit override. -/
def biTimeNoRev : BuildInfo :=
  ⟨⟨"go1.22", "v1.0.0", [⟨"vcs.time", "2024-01-01T00:00:00Z"⟩]⟩, ""⟩

/-- A second metadata collection with a parseable `vcs.time` and no
`vcs.revision` entry. -/
def biTimeNoRev2 : BuildInfo :=
  ⟨⟨"go1.22", "v1.0.0", [⟨"vcs.time", "2024-01-02T03:04:05Z"⟩]⟩, ""⟩

/-- Metadata committed at midnight UTC. -/
def biMidnight : BuildInfo :=
  ⟨⟨"go1.22", "", [⟨"vcs.revision", "abcdefabcdef"⟩, ⟨"vcs.time", "2024-01-01T00:00:00Z"⟩]⟩, ""⟩

/-- The same metadata committed one hour later. -/
def biOneAM : BuildInfo :=
  ⟨⟨"go1.22", "", [⟨"vcs.revision", "abcdefabcdef"⟩, ⟨"vcs.time", "2024-01-01T01:00:00Z"⟩]⟩, ""⟩

/-- Full metadata with a long revision, no override. -/
def biFull : BuildInfo :=
  ⟨⟨"go1.21", "v0.9.0",
    [⟨"vcs.revision", "abcdef123456789"⟩, ⟨"vcs.time", "2024-01-15T10:30:00Z"⟩]⟩, ""⟩

/-- A `json.Marshal` stand-in that fails. -/
def encFail : List (String × String) → Except String String :=
  fun _ => Except.error "boom"

/-- An output sink that accepts every write. -/
def sinkOk : String → Except String Unit :=
  fun _ => Except.ok ()

/-! ### Claims -/

/-- C1: the claimed three-tier resolution of `Version()` fails on the
code.  With an empty override, a parseable `vcs.time` and a missing
`vcs.revision`, synthesis yields no (non-empty) result, so by the claim
`Version()` should return the main module version `"v1.0.0"`; instead the
unguarded `Revision()[:12]` slice in `pseudoVersion` faults at runtime
(modelled as `none`) and `Version()` never returns. -/
theorem C1_version_tier3_fault :
    biTimeNoRev.version = "" ∧
    parseRFC3339 (BuildInfo.Time biTimeNoRev) = some ⟨2024, 1, 1, 0, 0, 0⟩ ∧
    BuildInfo.Revision biTimeNoRev = "" ∧
    biTimeNoRev.buildInfo.mainVersion = "v1.0.0" ∧
    BuildInfo.Version biTimeNoRev = none := by
  refine ⟨rfl, by decide, by decide, rfl, by decide⟩

/-- C2: the claimed totality of every accessor fails on the code.  On a
build-settings collection missing `vcs.revision` but holding a parseable
`vcs.time`, the accessors `Revision`, `Time`, `Modified`, `GoVersion`
do return the documented defaults, but `Version()` reaches the unguarded
`Revision()[:12]` slice in `pseudoVersion` and faults (modelled as
`none`) instead of returning a value. -/
theorem C2_accessor_totality_fault :
    BuildInfo.Revision biTimeNoRev2 = "" ∧
    BuildInfo.Time biTimeNoRev2 = "2024-01-02T03:04:05Z" ∧
    BuildInfo.Modified biTimeNoRev2 = false ∧
    BuildInfo.GoVersion biTimeNoRev2 = "go1.22" ∧
    BuildInfo.Version biTimeNoRev2 = none := by
  refine ⟨by decide, by decide, by decide, rfl, by decide⟩

/-- C3: with `any` derived from the explicitly-supplied flags (excluding
`json`) and `all` from the `all` flag's value, the version number is
included exactly when `!any`, or the `number` flag, or `all`; `Revision`,
`Time`, `GoVersion` and `Modified` are each included exactly when their
own flag or `all`; and when `all` is set the full five-field set is
included regardless of the other flags.  Inclusion is stated as the
guarded pieces of the text body and as key presence in the JSON data. -/
theorem C3_field_selection_rule (fl : VersionFlags) (info : VersionInfo) :
    (writeTextBody fl (anyFieldFlag fl) (testFlag fl "all") info =
      (if !(anyFieldFlag fl) || testFlag fl "number" || testFlag fl "all" then
        info.version else "") ++
      (if testFlag fl "revision" || testFlag fl "all" then " " ++ info.revision else "") ++
      (if testFlag fl "time" || testFlag fl "all" then " " ++ info.time else "") ++
      (if testFlag fl "go-version" || testFlag fl "all" then " " ++ info.goVersion else "") ++
      (if (testFlag fl "modified" || testFlag fl "all") && info.modified then
        " (modified)" else "")) ∧
    (((writeJsonData fl (anyFieldFlag fl) (testFlag fl "all") info).lookup "Version").isSome =
        (!(anyFieldFlag fl) || testFlag fl "number" || testFlag fl "all") ∧
     ((writeJsonData fl (anyFieldFlag fl) (testFlag fl "all") info).lookup "Revision").isSome =
        (testFlag fl "revision" || testFlag fl "all") ∧
     ((writeJsonData fl (anyFieldFlag fl) (testFlag fl "all") info).lookup "Time").isSome =
        (testFlag fl "time" || testFlag fl "all") ∧
     ((writeJsonData fl (anyFieldFlag fl) (testFlag fl "all") info).lookup "GoVersion").isSome =
        (testFlag fl "go-version" || testFlag fl "all") ∧
     ((writeJsonData fl (anyFieldFlag fl) (testFlag fl "all") info).lookup "Modified").isSome =
        (testFlag fl "modified" || testFlag fl "all")) ∧
    (testFlag fl "all" = true →
      ((writeJsonData fl (anyFieldFlag fl) (testFlag fl "all") info).lookup "Version").isSome = true ∧
      ((writeJsonData fl (anyFieldFlag fl) (testFlag fl "all") info).lookup "Revision").isSome = true ∧
      ((writeJsonData fl (anyFieldFlag fl) (testFlag fl "all") info).lookup "Time").isSome = true ∧
      ((writeJsonData fl (anyFieldFlag fl) (testFlag fl "all") info).lookup "GoVersion").isSome = true ∧
      ((writeJsonData fl (anyFieldFlag fl) (testFlag fl "all") info).lookup "Modified").isSome = true) := by
  refine ⟨writeTextBody_eq fl _ _ info,
    ⟨jsonLookup_version fl _ _ info, jsonLookup_revision fl _ _ info,
     jsonLookup_time fl _ _ info, jsonLookup_goVersion fl _ _ info,
     jsonLookup_modified fl _ _ info⟩, ?_⟩
  intro h
  simp [jsonLookup_version, jsonLookup_revision, jsonLookup_time,
    jsonLookup_goVersion, jsonLookup_modified, h]

/-- C3 witness: with exactly `--all` supplied, the full five-field set is
included. -/
theorem C3_field_selection_rule_witness :
    (testFlag flagsAllOnly "all" = true) ∧
    (((writeJsonData flagsAllOnly (anyFieldFlag flagsAllOnly)
        (testFlag flagsAllOnly "all") info0).lookup "Version").isSome = true ∧
     ((writeJsonData flagsAllOnly (anyFieldFlag flagsAllOnly)
        (testFlag flagsAllOnly "all") info0).lookup "Revision").isSome = true ∧
     ((writeJsonData flagsAllOnly (anyFieldFlag flagsAllOnly)
        (testFlag flagsAllOnly "all") info0).lookup "Time").isSome = true ∧
     ((writeJsonData flagsAllOnly (anyFieldFlag flagsAllOnly)
        (testFlag flagsAllOnly "all") info0).lookup "GoVersion").isSome = true ∧
     ((writeJsonData flagsAllOnly (anyFieldFlag flagsAllOnly)
        (testFlag flagsAllOnly "all") info0).lookup "Modified").isSome = true) :=
  ⟨by decide, (C3_field_selection_rule flagsAllOnly info0).2.2 (by decide)⟩

/-- C4: both renderers are governed by one and the same selection rule
(`specFieldSelection`, written from the specification's wording): a key
is present in the JSON data exactly when the rule selects the field, and
the text body is the concatenation of exactly the selected fields'
pieces.  Only the serialization of the selected fields differs. -/
theorem C4_renderers_same_selection (fl : VersionFlags) (any all : Bool) (info : VersionInfo) :
    (((writeJsonData fl any all info).lookup "Version").isSome =
        (specFieldSelection fl any all).version ∧
     ((writeJsonData fl any all info).lookup "Revision").isSome =
        (specFieldSelection fl any all).revision ∧
     ((writeJsonData fl any all info).lookup "Time").isSome =
        (specFieldSelection fl any all).time ∧
     ((writeJsonData fl any all info).lookup "GoVersion").isSome =
        (specFieldSelection fl any all).goVersion ∧
     ((writeJsonData fl any all info).lookup "Modified").isSome =
        (specFieldSelection fl any all).modified) ∧
    writeTextBody fl any all info =
      (if (specFieldSelection fl any all).version then info.version else "") ++
      (if (specFieldSelection fl any all).revision then " " ++ info.revision else "") ++
      (if (specFieldSelection fl any all).time then " " ++ info.time else "") ++
      (if (specFieldSelection fl any all).goVersion then " " ++ info.goVersion else "") ++
      (if (specFieldSelection fl any all).modified then
        (if info.modified then " (modified)" else "") else "") := by
  constructor
  · exact ⟨by simp [specFieldSelection, jsonLookup_version],
      by simp [specFieldSelection, jsonLookup_revision],
      by simp [specFieldSelection, jsonLookup_time],
      by simp [specFieldSelection, jsonLookup_goVersion],
      by simp [specFieldSelection, jsonLookup_modified]⟩
  · rw [writeTextBody_eq]
    simp only [specFieldSelection]
    rw [and_ite_nest]

/-- C5: pseudo-version synthesis depends only on the `(Time, Revision)`
pair, and on any provider whose recorded time parses as RFC3339 and whose
revision has at least 12 characters it succeeds with
`v0.0.0-<timestamp>-<revision prefix>`, where the timestamp is exactly
12 decimal digits and the suffix is exactly the first 12 characters of
the revision. -/
theorem C5_pseudo_version_determinism_format :
    (∀ bi1 bi2 : BuildInfo, BuildInfo.Time bi1 = BuildInfo.Time bi2 →
      BuildInfo.Revision bi1 = BuildInfo.Revision bi2 →
      BuildInfo.pseudoVersion bi1 = BuildInfo.pseudoVersion bi2) ∧
    (∀ (bi : BuildInfo) (dt : DateTime), parseRFC3339 (BuildInfo.Time bi) = some dt →
      12 ≤ (BuildInfo.Revision bi).length →
      BuildInfo.pseudoVersion bi =
        some ("v0.0.0-" ++ formatTimestamp dt ++ "-" ++ (BuildInfo.Revision bi).take 12) ∧
      (formatTimestamp dt).length = 12 ∧
      (∀ c ∈ (formatTimestamp dt).data, c.isDigit = true) ∧
      ((BuildInfo.Revision bi).take 12).length = 12 ∧
      ((BuildInfo.Revision bi).take 12).data = (BuildInfo.Revision bi).data.take 12) := by
  constructor
  · intro bi1 bi2 h1 h2
    simp only [BuildInfo.pseudoVersion, h1, h2]
  · intro bi dt hp hlen
    have h12 : 12 ≤ bi.Revision.data.length := hlen
    refine ⟨?_, formatTimestamp_length dt, formatTimestamp_digits dt, ?_,
      String.data_take _ _⟩
    · simp only [BuildInfo.pseudoVersion, hp]
      rw [if_neg (by omega)]
    · calc ((BuildInfo.Revision bi).take 12).length
          = ((BuildInfo.Revision bi).take 12).data.length :=
            (String.length_data _).symm
        _ = ((BuildInfo.Revision bi).data.take 12).length := by
            rw [String.data_take]
        _ = 12 := by
            rw [List.length_take]
            omega

/-- C5 witness: a concrete provider with a parseable time and a
15-character revision. -/
theorem C5_pseudo_version_determinism_format_witness :
    (parseRFC3339 (BuildInfo.Time biFull) = some ⟨2024, 1, 15, 10, 30, 0⟩) ∧
    (12 ≤ (BuildInfo.Revision biFull).length) ∧
    BuildInfo.pseudoVersion biFull =
      some ("v0.0.0-" ++ formatTimestamp ⟨2024, 1, 15, 10, 30, 0⟩ ++ "-" ++
        (BuildInfo.Revision biFull).take 12) :=
  ⟨by decide, by decide,
    (C5_pseudo_version_determinism_format.2 biFull ⟨2024, 1, 15, 10, 30, 0⟩
      (by decide) (by decide)).1⟩

/-- C6: the claimed monotone sortability fails on the code.  For the
fixed 12-character revision `abcdefabcdef`, the build time
2024-01-01T00:00:00Z is one hour earlier than 2024-01-01T01:00:00Z, yet
the 12-hour-clock layout element renders midnight as `12`, so the
earlier build's pseudo-version sorts lexicographically strictly after
the later build's. -/
theorem C6_pseudo_version_sort_inversion :
    parseRFC3339 (BuildInfo.Time biMidnight) = some ⟨2024, 1, 1, 0, 0, 0⟩ ∧
    parseRFC3339 (BuildInfo.Time biOneAM) = some ⟨2024, 1, 1, 1, 0, 0⟩ ∧
    BuildInfo.pseudoVersion biMidnight = some "v0.0.0-240101120000-abcdefabcdef" ∧
    BuildInfo.pseudoVersion biOneAM = some "v0.0.0-240101010000-abcdefabcdef" ∧
    ("v0.0.0-240101010000-abcdefabcdef" : String).data <
      ("v0.0.0-240101120000-abcdefabcdef" : String).data := by
  refine ⟨by decide, by decide, by decide, by decide, by decide⟩

/-- C7: the text renderer writes the trimmed concatenation of the
included pieces in the fixed order Version, Revision, Time, GoVersion,
Modified-marker — each piece after the first carrying its single leading
space, the marker present only when `Modified` is true — followed by one
newline; and with only `--modified` supplied and `Modified` false the
written line is empty. -/
theorem C7_text_render_shape :
    (∀ (fl : VersionFlags) (any all : Bool) (info : VersionInfo),
      writeTextOutput fl any all info =
        trimSpace
          ((if !any || testFlag fl "number" || all then info.version else "") ++
           (if testFlag fl "revision" || all then " " ++ info.revision else "") ++
           (if testFlag fl "time" || all then " " ++ info.time else "") ++
           (if testFlag fl "go-version" || all then " " ++ info.goVersion else "") ++
           (if (testFlag fl "modified" || all) && info.modified then
             " (modified)" else "")) ++ "\n") ∧
    (∀ v r t g : String, execOutput flagsModifiedOnly ⟨v, r, t, false, g⟩ = "\n") := by
  constructor
  · intro fl any all info
    simp only [writeTextOutput]
    rw [writeTextBody_eq]
  · intro v r t g
    rfl

/-- C8: invoking the command with no flags and invoking it with exactly
`--number` produce identical output for every provider: both select only
the version number. -/
theorem C8_no_flags_equals_number_flag (info : VersionInfo) :
    execOutput flagsNone info = execOutput flagsNumberOnly info := rfl

/-- C9: an encoding failure is returned as a wrapped error naming the
encoding stage without any write being attempted; a write failure in
either mode is returned as a wrapped error naming the writing stage; on
success no error is returned; and the sink is invoked at most once (no
retry). -/
theorem C9_error_wrapping (fl : VersionFlags) (any all : Bool) (info : VersionInfo)
    (enc : List (String × String) → Except String String)
    (w : String → Except String Unit) :
    (∀ e, enc (writeJsonData fl any all info) = Except.error e →
      writeJsonRun fl any all info enc w =
        (Except.error ("error encoding version information: " ++ e), [])) ∧
    (∀ m e, enc (writeJsonData fl any all info) = Except.ok m →
      w (m ++ "\n") = Except.error e →
      writeJsonRun fl any all info enc w =
        (Except.error ("error writing version information: " ++ e), [m ++ "\n"])) ∧
    (∀ m, enc (writeJsonData fl any all info) = Except.ok m →
      w (m ++ "\n") = Except.ok () →
      writeJsonRun fl any all info enc w = (Except.ok (), [m ++ "\n"])) ∧
    (∀ e, w (trimSpace (writeTextBody fl any all info) ++ "\n") = Except.error e →
      writeTextRun fl any all info w =
        (Except.error ("error writing version information: " ++ e),
         [trimSpace (writeTextBody fl any all info) ++ "\n"])) ∧
    (w (trimSpace (writeTextBody fl any all info) ++ "\n") = Except.ok () →
      writeTextRun fl any all info w =
        (Except.ok (), [trimSpace (writeTextBody fl any all info) ++ "\n"])) ∧
    (writeJsonRun fl any all info enc w).2.length ≤ 1 ∧
    (writeTextRun fl any all info w).2.length ≤ 1 := by
  refine ⟨?_, ?_, ?_, ?_, ?_, ?_, ?_⟩
  · intro e he
    simp [writeJsonRun, he]
  · intro m e he hw
    simp [writeJsonRun, he, hw]
  · intro m he hw
    simp [writeJsonRun, he, hw]
  · intro e hw
    simp [writeTextRun, hw]
  · intro hw
    simp [writeTextRun, hw]
  · rcases he : enc (writeJsonData fl any all info) with e | m
    · simp [writeJsonRun, he]
    · rcases hw : w (m ++ "\n") with e | u
      · simp [writeJsonRun, he, hw]
      · simp [writeJsonRun, he, hw]
  · rcases hw : w (trimSpace (writeTextBody fl any all info) ++ "\n") with e | u
    · simp [writeTextRun, hw]
    · simp [writeTextRun, hw]

/-- C9 witness: a failing encoder yields the wrapped encoding-stage
error and no write. -/
theorem C9_error_wrapping_witness :
    (encFail (writeJsonData flagsNone false false info0) = Except.error "boom") ∧
    writeJsonRun flagsNone false false info0 encFail sinkOk =
      (Except.error ("error encoding version information: " ++ "boom"), []) :=
  ⟨rfl, (C9_error_wrapping flagsNone false false info0 encFail sinkOk).1 "boom" rfl⟩

/-- C10: with exactly `--number=false` supplied, the explicitly-set
detection makes `any` true while every field value is false, so no field
is selected and the text output is an empty line. -/
theorem C10_explicit_false_selects_nothing (info : VersionInfo) :
    execOutput flagsNumberFalse info = "\n" := rfl

end Cli
